import Mathlib

/-!
Verification of the dynamic schema compiler in `pydantic_advanced.py`.

The repository builds pydantic models at runtime from a JSON-style schema
description: `build_field` turns one field definition (a dict with keys
`name`, `type`, `required`, `default`, `min`, `max`, `min_length`) into a
`(python_type, FieldInfo)` pair, and `create_extraction_model` folds a list
of such definitions into a dict and hands it to pydantic's `create_model`.
The resulting model validates input records: missing required fields,
type coercion, `ge`/`le`/`min_length` constraints, aggregation of all
field errors, and permissive handling of extra keys.

This file embeds that pipeline shallowly.  `build_field`,
`create_extraction_model`, `type_mapping`, `schema_from_api` and
`extracted_data` are translated directly from the source file.  The record
validation performed by the pydantic library itself (which is not part of
this repository) is modelled from the specification's description of
`validate`, as are the constraint/type compatibility checks that
`create_model` performs; those definitions carry a `Modelled from the
spec:` note.
-/

deriving instance DecidableEq for Except

/-- A JSON-style runtime value: the Python values that can appear in an
input record or as a constraint/default (None, str, int, float, bool).
Python floats are modelled as exact rationals; every numeric literal in
the repository is exactly representable. -/
inductive Value where
  | null
  | str (s : String)
  | int (n : Int)
  | float (q : ℚ)
  | bool (b : Bool)
deriving DecidableEq

/-- One entry of the external schema description (`schema_from_api["fields"]`):
a Python dict with a `name` and `type` key and optional `required`,
`default`, `min`, `max`, `min_length` keys.  `Option` models key presence:
`none` means the key is absent from the dict. -/
structure FieldDef where
  name : String
  type_tag : String
  required : Option Bool
  default : Option Value
  min : Option ℚ
  max : Option ℚ
  min_length : Option Nat
deriving DecidableEq

/-- The Python types that the `type_mapping` dict in `build_field` can
produce: `str`, `int`, `float`, `bool`. -/
inductive PType where
  | str
  | int
  | float
  | bool
deriving DecidableEq

/-- The `type_mapping` dict lookup in `build_field`:
`{"str": str, "int": int, "float": float, "bool": bool}[tag]`.
`none` models the `KeyError` raised for an unrecognized tag. -/
def type_mapping (tag : String) : Option PType :=
  if tag = "str" then some PType.str
  else if tag = "int" then some PType.int
  else if tag = "float" then some PType.float
  else if tag = "bool" then some PType.bool
  else none

/-- Compile-time failures of schema construction. -/
inductive DefinitionError where
  | UnknownType
  | IncompatibleConstraint
  | DuplicateField
  | InvalidDefault
deriving DecidableEq

/-- The `(python_type, FieldInfo)` pair returned by `build_field`:
the mapped type, whether the annotation was widened to `python_type | None`,
the pydantic default (`none` models `Field(...)`, i.e. required), and the
keyword-argument dict passed to `Field`. -/
structure CompiledField where
  python_type : PType
  nullable : Bool
  default : Option Value
  kwargs : List (String × Value)
deriving DecidableEq

/-- The `field_kwargs` dict built inside `build_field`: `"ge"` from the
`min` key, `"le"` from the `max` key, `"min_length"` from the
`min_length` key, in that order, each only when present. -/
def build_kwargs (fd : FieldDef) : List (String × Value) :=
  (match fd.min with
   | some q => [("ge", Value.float q)]
   | none => []) ++
  (match fd.max with
   | some q => [("le", Value.float q)]
   | none => []) ++
  (match fd.min_length with
   | some n => [("min_length", Value.int n)]
   | none => [])

/-- `build_field` from the source: map the type tag (a `KeyError` on an
unrecognized tag is the `UnknownType` failure), build `field_kwargs`, then
return `(python_type, Field(..., **field_kwargs))` when
`field_def.get("required", True)` holds, and otherwise
`(python_type | None, Field(field_kwargs.get("default"), **field_kwargs))`.
Note that the source reads the default out of `field_kwargs` (which never
holds a `"default"` key), not out of `field_def`. -/
def build_field (fd : FieldDef) : Except DefinitionError CompiledField :=
  match type_mapping fd.type_tag with
  | none => Except.error DefinitionError.UnknownType
  | some python_type =>
    let field_kwargs := build_kwargs fd
    if fd.required.getD true then
      Except.ok ⟨python_type, false, none, field_kwargs⟩
    else
      Except.ok ⟨python_type, true,
        some ((field_kwargs.lookup "default").getD Value.null), field_kwargs⟩

/-- Python dict assignment `d[k] = v`: an existing key keeps its position
and gets the new value; a new key is appended. -/
def dictInsert (d : List (String × CompiledField)) (k : String) (v : CompiledField) :
    List (String × CompiledField) :=
  if d.any (fun p => p.1 == k) then
    d.map (fun p => if p.1 == k then (k, v) else p)
  else
    d ++ [(k, v)]

/-- Modelled from the spec: the constraint/type compatibility check that
the pydantic library performs inside `create_model` (library code, not part
of this repository): numeric bounds `min`/`max` are "applicable only to
integer/float tags", `min_length` is "applicable only to string tags", and
a constraint on a mismatched type is a definition error. -/
def constraint_compatible (cf : CompiledField) : Bool :=
  ((cf.kwargs.lookup "ge").isNone || cf.python_type == PType.int
    || cf.python_type == PType.float) &&
  ((cf.kwargs.lookup "le").isNone || cf.python_type == PType.int
    || cf.python_type == PType.float) &&
  ((cf.kwargs.lookup "min_length").isNone || cf.python_type == PType.str)

/-- The immutable compiled artifact: the model name passed to
`create_model` and the ordered field dict. -/
structure CompiledSchema where
  model_name : String
  fields : List (String × CompiledField)
deriving DecidableEq

/-- `create_extraction_model` from the source: fold the field definitions
into a dict via `fields[field_def["name"]] = build_field(field_def)` (so a
duplicate name silently overwrites the earlier entry), then call
`create_model(model_name, **fields)`; the compatibility check that
`create_model` performs on each field is modelled from the spec (see
`constraint_compatible`). -/
def create_extraction_model (schema_fields : List FieldDef) (model_name : String) :
    Except DefinitionError CompiledSchema := do
  let fields ← schema_fields.foldlM
    (fun acc fd => do
      let f ← build_field fd
      pure (dictInsert acc fd.name f))
    ([] : List (String × CompiledField))
  if fields.all (fun p => constraint_compatible p.2) then
    pure ⟨model_name, fields⟩
  else
    Except.error DefinitionError.IncompatibleConstraint

/-- The kinds of field-level validation failures. -/
inductive FieldErrorKind where
  | MissingRequiredField
  | TypeMismatch
  | BelowMinimum
  | AboveMaximum
  | TooShort
deriving DecidableEq

/-- One field-level validation failure: the failing field and the
constraint violated. -/
structure FieldError where
  field : String
  kind : FieldErrorKind
deriving DecidableEq

/-- Modelled from the spec: coercion of a present raw value to the field's
semantic type, performed by the pydantic library (not part of this
repository).  `null` is accepted exactly when the annotation was widened
to `python_type | None`; an `int` coerces to a `float` field; any other
mismatch is a coercion failure. -/
def coerce (t : PType) (nullable : Bool) : Value → Option Value
  | Value.null => if nullable then some Value.null else none
  | Value.str s => if t == PType.str then some (Value.str s) else none
  | Value.int n =>
      match t with
      | PType.int => some (Value.int n)
      | PType.float => some (Value.float (mkRat n 1))
      | _ => none
  | Value.float q => if t == PType.float then some (Value.float q) else none
  | Value.bool b => if t == PType.bool then some (Value.bool b) else none

/-- Numeric view of a coerced value, for bound checks. -/
def Value.asNum : Value → Option ℚ
  | Value.int n => some (mkRat n 1)
  | Value.float q => some q
  | _ => none

/-- The `"ge"`/`"le"` bound stored in a kwargs dict, if any. -/
def kwNum (kw : List (String × Value)) (k : String) : Option ℚ :=
  match kw.lookup k with
  | some v => v.asNum
  | none => none

/-- The `"min_length"` bound stored in a kwargs dict, if any. -/
def kwLen (kw : List (String × Value)) : Option Int :=
  match kw.lookup "min_length" with
  | some (Value.int n) => some n
  | _ => none

/-- Modelled from the spec: the lower-bound check — a violated `ge` bound
produces a `BelowMinimum` error. -/
def check_lower (name : String) (kw : List (String × Value)) (v : Value) : List FieldError :=
  match kwNum kw "ge", v.asNum with
  | some lo, some x => if x < lo then [⟨name, FieldErrorKind.BelowMinimum⟩] else []
  | _, _ => []

/-- Modelled from the spec: the upper-bound check — a violated `le` bound
produces an `AboveMaximum` error. -/
def check_upper (name : String) (kw : List (String × Value)) (v : Value) : List FieldError :=
  match kwNum kw "le", v.asNum with
  | some hi, some x => if hi < x then [⟨name, FieldErrorKind.AboveMaximum⟩] else []
  | _, _ => []

/-- Modelled from the spec: the string-length check — a violated
`min_length` bound produces a `TooShort` error. -/
def check_min_length (name : String) (kw : List (String × Value)) (v : Value) : List FieldError :=
  match kwLen kw, v with
  | some m, Value.str s => if (s.length : Int) < m then [⟨name, FieldErrorKind.TooShort⟩] else []
  | _, _ => []

/-- Modelled from the spec: constraints applied to a successfully coerced
value in the fixed order lower bound, upper bound, minimum length, without
short-circuiting; a `null` value (an optional field's accepted `None`)
satisfies all constraints vacuously. -/
def check_constraints (name : String) (kw : List (String × Value)) : Value → List FieldError
  | Value.null => []
  | v => check_lower name kw v ++ check_upper name kw v ++ check_min_length name kw v

/-- Modelled from the spec: validation of one field of the schema against
the record, performed by the pydantic library (not part of this
repository).  An absent field is a `MissingRequiredField` error when the
field has no default and resolves to the default otherwise; a present
value is coerced (failure is a `TypeMismatch`, and constraint checks are
skipped) and then checked against the constraints.  Returns the field's
error list together with its resolved value, if any. -/
def validate_field (record : List (String × Value)) (name : String) (cf : CompiledField) :
    List FieldError × Option Value :=
  match record.lookup name with
  | none =>
    match cf.default with
    | none => ([⟨name, FieldErrorKind.MissingRequiredField⟩], none)
    | some d => ([], some d)
  | some v =>
    match coerce cf.python_type cf.nullable v with
    | none => ([⟨name, FieldErrorKind.TypeMismatch⟩], none)
    | some cv => (check_constraints name cf.kwargs cv, some cv)

/-- One step of the validation loop: append the current field's errors and
its resolved value to the accumulators. -/
def validate_step (record : List (String × Value))
    (acc : List FieldError × List (String × Value)) (p : String × CompiledField) :
    List FieldError × List (String × Value) :=
  ((acc.1 ++ (validate_field record p.1 p.2).1),
   (acc.2 ++ [(p.1, ((validate_field record p.1 p.2).2).getD Value.null)]))

/-- Modelled from the spec: record validation by the compiled model
(pydantic library code, not part of this repository).  Walks the fields in
schema order accumulating field errors and resolved values; if any error
occurred the aggregated error list is returned, otherwise the validated
record in schema order.  Extra keys of `record` are never consulted. -/
def validate (s : CompiledSchema) (record : List (String × Value)) :
    Except (List FieldError) (List (String × Value)) :=
  let out := s.fields.foldl (validate_step record) ([], [])
  if out.1 = [] then Except.ok out.2 else Except.error out.1

/-- The errors contributed by a single field. -/
def field_errors (record : List (String × Value)) (p : String × CompiledField) :
    List FieldError :=
  (validate_field record p.1 p.2).1

/-- The resolved name/value pair contributed by a single field. -/
def resolved_value (record : List (String × Value)) (p : String × CompiledField) :
    String × Value :=
  (p.1, ((validate_field record p.1 p.2).2).getD Value.null)

/-- The schema description that the source file feeds to
`create_extraction_model` (`schema_from_api["fields"]`). -/
def schema_from_api : List FieldDef :=
  [⟨"loan_amount", "float", some true, none, some (mkRat 0 1), none, none⟩,
   ⟨"interest_rate", "float", some true, none, some (mkRat 0 1), some (mkRat 100 1), none⟩,
   ⟨"borrower_name", "str", some true, none, none, none, some 1⟩,
   ⟨"loan_date", "str", some false, some Value.null, none, none, none⟩]

/-- The record the source file validates against `LoanExtraction`. -/
def extracted_data : List (String × Value) :=
  [("loan_amount", Value.float (mkRat 350000 1)),
   ("interest_rate", Value.float (mkRat 675 100)),
   ("borrower_name", Value.str "Jane Smith")]

/-- The out-of-bounds record of the specification's second concrete
scenario. -/
def bad_extracted_data : List (String × Value) :=
  [("loan_amount", Value.int (-100)),
   ("interest_rate", Value.int 150),
   ("borrower_name", Value.str "")]

/-- The compiled `loan_amount` field: required float with lower bound 0. -/
def loan_amount_cf : CompiledField :=
  ⟨PType.float, false, none, [("ge", Value.float (mkRat 0 1))]⟩

/-- The compiled `interest_rate` field: required float bounded by 0 and 100. -/
def interest_rate_cf : CompiledField :=
  ⟨PType.float, false, none,
   [("ge", Value.float (mkRat 0 1)), ("le", Value.float (mkRat 100 1))]⟩

/-- The compiled `borrower_name` field: required string of length at least 1. -/
def borrower_name_cf : CompiledField :=
  ⟨PType.str, false, none, [("min_length", Value.int 1)]⟩

/-- The compiled `loan_date` field: optional string defaulting to null. -/
def loan_date_cf : CompiledField := ⟨PType.str, true, some Value.null, []⟩

/-- The compiled loan schema, named `LoanExtraction` in the source. -/
def LoanExtraction : CompiledSchema :=
  ⟨"LoanExtraction",
   [("loan_amount", loan_amount_cf), ("interest_rate", interest_rate_cf),
    ("borrower_name", borrower_name_cf), ("loan_date", loan_date_cf)]⟩

/-- An optional field definition that declares a non-null default value. -/
def default_ignored_field : FieldDef :=
  ⟨"loan_note", "str", some false, some (Value.str "none on file"), none, none, none⟩

/-- A field definition named `"amount"`, of type `int`. -/
def dup_a : FieldDef := ⟨"amount", "int", some true, none, none, none, none⟩

/-- A second field definition also named `"amount"`, of type `float` with a
lower bound. -/
def dup_b : FieldDef := ⟨"amount", "float", some true, none, some (mkRat 0 1), none, none⟩

/-- The compiled form of `dup_b`. -/
def dup_compiled : CompiledField :=
  ⟨PType.float, false, none, [("ge", Value.float (mkRat 0 1))]⟩

/-- A `build_field` failure is always the unknown-type failure: the only
raising operation in its body is the `type_mapping` lookup. -/
theorem build_field_error_eq (fd : FieldDef) (e : DefinitionError)
    (h : build_field fd = Except.error e) : e = DefinitionError.UnknownType := by
  unfold build_field at h
  cases hm : type_mapping fd.type_tag with
  | none => rw [hm] at h; exact (Except.error.injEq _ _ ▸ h :).symm
  | some t => rw [hm] at h; dsimp at h; split at h <;> simp at h

/-- Binding a failure in the `Except` monad propagates the failure. -/
theorem except_bind_error {ε α β : Type} (e : ε) (f : α → Except ε β) :
    (Except.error e >>= f) = Except.error e := rfl

/-- Binding a success in the `Except` monad applies the continuation. -/
theorem except_bind_ok {ε α β : Type} (a : α) (f : α → Except ε β) :
    (Except.ok a >>= f) = f a := rfl

/-- The field-dict fold of `create_extraction_model` fails only with the
unknown-type failure. -/
theorem foldlM_build_error_eq (l : List FieldDef)
    (acc : List (String × CompiledField)) (e : DefinitionError)
    (h : l.foldlM
      (fun acc fd => do
        let f ← build_field fd
        pure (dictInsert acc fd.name f))
      acc = Except.error e) :
    e = DefinitionError.UnknownType := by
  induction l generalizing acc with
  | nil => simp [List.foldlM, pure, Except.pure] at h
  | cons fd t ih =>
    rw [List.foldlM_cons] at h
    cases hb : build_field fd with
    | error e' =>
      rw [hb, except_bind_error] at h
      cases h
      exact build_field_error_eq fd e hb
    | ok f =>
      rw [hb, except_bind_ok] at h
      exact ih _ h

/-- Unfolding the validation loop: the accumulated state after folding is
the concatenation of the per-field error lists and the per-field resolved
values, in schema order. -/
theorem foldl_validate_step (record : List (String × Value))
    (l : List (String × CompiledField)) (e0 : List FieldError)
    (v0 : List (String × Value)) :
    l.foldl (validate_step record) (e0, v0) =
      (e0 ++ l.flatMap (field_errors record), v0 ++ l.map (resolved_value record)) := by
  induction l generalizing e0 v0 with
  | nil => simp
  | cons p t ih =>
    simp only [List.foldl_cons, validate_step, ih, List.flatMap_cons, List.map_cons,
      field_errors, resolved_value, List.append_assoc, List.singleton_append]

/-- Validation in closed form: the flattened per-field error lists decide
the outcome, and a success carries every field's resolved value in schema
order. -/
theorem validate_eq_spec (s : CompiledSchema) (record : List (String × Value)) :
    validate s record =
      if s.fields.flatMap (field_errors record) = [] then
        Except.ok (s.fields.map (resolved_value record))
      else
        Except.error (s.fields.flatMap (field_errors record)) := by
  unfold validate
  rw [foldl_validate_step]
  simp

/-- The `"ge"` entry of the kwargs dict comes from the `min` key. -/
theorem lookup_ge_build_kwargs (fd : FieldDef) :
    (build_kwargs fd).lookup "ge" = fd.min.map Value.float := by
  unfold build_kwargs
  cases fd.min <;> cases fd.max <;> cases fd.min_length <;> simp [List.lookup]

/-- The `"le"` entry of the kwargs dict comes from the `max` key. -/
theorem lookup_le_build_kwargs (fd : FieldDef) :
    (build_kwargs fd).lookup "le" = fd.max.map Value.float := by
  unfold build_kwargs
  cases fd.min <;> cases fd.max <;> cases fd.min_length <;> simp [List.lookup]

/-- The `"min_length"` entry of the kwargs dict comes from the
`min_length` key. -/
theorem lookup_min_length_build_kwargs (fd : FieldDef) :
    (build_kwargs fd).lookup "min_length" = fd.min_length.map (fun n => Value.int n) := by
  unfold build_kwargs
  cases fd.min <;> cases fd.max <;> cases fd.min_length <;> simp [List.lookup]

/-- The kwargs dict never holds a `"default"` entry, so the source's
`field_kwargs.get("default")` always yields `None`. -/
theorem lookup_default_build_kwargs (fd : FieldDef) :
    (build_kwargs fd).lookup "default" = none := by
  unfold build_kwargs
  cases fd.min <;> cases fd.max <;> cases fd.min_length <;> simp [List.lookup]

/-- Pure values in the `Except` monad are successes. -/
theorem except_pure_eq {ε α : Type} (a : α) : (pure a : Except ε α) = Except.ok a := rfl

/-- A recognized type tag makes `build_field` succeed, with the mapped
type, the kwargs dict it built, and a default exactly when the field is
not required. -/
theorem build_field_ok_of_type (fd : FieldDef) (t : PType)
    (h : type_mapping fd.type_tag = some t) :
    ∃ cf, build_field fd = Except.ok cf ∧ cf.python_type = t ∧
      cf.kwargs = build_kwargs fd ∧
      (cf.default = none ↔ fd.required.getD true = true) := by
  unfold build_field
  rw [h]
  cases hr : fd.required.getD true <;> simp [hr]

/-- A lower-bound error is the only thing `check_lower` can produce. -/
theorem mem_check_lower {name : String} {kw : List (String × Value)} {v : Value}
    {e : FieldError} (h : e ∈ check_lower name kw v) :
    e = ⟨name, FieldErrorKind.BelowMinimum⟩ := by
  unfold check_lower at h
  split at h
  · split at h <;> simp_all
  · simp at h

/-- An upper-bound error is the only thing `check_upper` can produce. -/
theorem mem_check_upper {name : String} {kw : List (String × Value)} {v : Value}
    {e : FieldError} (h : e ∈ check_upper name kw v) :
    e = ⟨name, FieldErrorKind.AboveMaximum⟩ := by
  unfold check_upper at h
  split at h
  · split at h <;> simp_all
  · simp at h

/-- A length error is the only thing `check_min_length` can produce. -/
theorem mem_check_min_length {name : String} {kw : List (String × Value)} {v : Value}
    {e : FieldError} (h : e ∈ check_min_length name kw v) :
    e = ⟨name, FieldErrorKind.TooShort⟩ := by
  unfold check_min_length at h
  split at h
  · split at h <;> simp_all
  · simp at h

/-- Constraint checking only produces bound and length errors. -/
theorem mem_check_constraints_kind {name : String} {kw : List (String × Value)}
    {v : Value} {e : FieldError} (h : e ∈ check_constraints name kw v) :
    e.kind = FieldErrorKind.BelowMinimum ∨ e.kind = FieldErrorKind.AboveMaximum ∨
      e.kind = FieldErrorKind.TooShort := by
  cases v <;> simp only [check_constraints, List.mem_append] at h
  · simp at h
  all_goals
    rcases h with (h | h) | h
    · exact Or.inl (by rw [mem_check_lower h])
    · exact Or.inr (Or.inl (by rw [mem_check_upper h]))
    · exact Or.inr (Or.inr (by rw [mem_check_min_length h]))

/-- A missing-required-field error for `m` among a field's errors pins the
field down: `m` is that field's name, the field has no default, and the
record lacks it. -/
theorem mem_field_errors_missing (record : List (String × Value))
    (p : String × CompiledField) (m : String)
    (h : FieldError.mk m FieldErrorKind.MissingRequiredField ∈ field_errors record p) :
    m = p.1 ∧ p.2.default = none ∧ record.lookup p.1 = none := by
  unfold field_errors validate_field at h
  cases hl : record.lookup p.1 with
  | none =>
    simp only [hl] at h
    cases hd : p.2.default with
    | none =>
      simp only [hd] at h
      simp at h
      exact ⟨h, rfl, rfl⟩
    | some d => simp only [hd] at h; simp at h
  | some v =>
    simp only [hl] at h
    cases hc : coerce p.2.python_type p.2.nullable v with
    | none => simp only [hc] at h; simp at h
    | some cv =>
      simp only [hc] at h
      rcases mem_check_constraints_kind h with hk | hk | hk <;> simp at hk

/-- A required field absent from the record contributes exactly one
missing-required-field error. -/
theorem field_errors_of_missing (record : List (String × Value))
    (p : String × CompiledField) (hd : p.2.default = none)
    (hl : record.lookup p.1 = none) :
    field_errors record p = [⟨p.1, FieldErrorKind.MissingRequiredField⟩] := by
  unfold field_errors validate_field
  rw [hl, hd]

/-- Appending a binding for a fresh key does not change lookups of other
keys. -/
theorem lookup_append_not_key {β : Type} (n k : String) (v : β)
    (record : List (String × β)) (h : n ≠ k) :
    (record ++ [(k, v)]).lookup n = record.lookup n := by
  induction record with
  | nil =>
    have hb : (n == k) = false := beq_eq_false_iff_ne.mpr h
    simp [List.lookup, hb]
  | cons p t ih =>
    cases p with
    | mk k' v' =>
      simp only [List.cons_append, List.lookup]
      cases hn : n == k' <;> simp [ih]

/-- Validating one field only consults the record at that field's name. -/
theorem validate_field_record_congr (r₁ r₂ : List (String × Value)) (n : String)
    (cf : CompiledField) (h : r₁.lookup n = r₂.lookup n) :
    validate_field r₁ n cf = validate_field r₂ n cf := by
  unfold validate_field
  rw [h]

/-- Two records agreeing on every field name of a schema produce the same
error lists and the same resolved values. -/
theorem errors_values_congr (r₁ r₂ : List (String × Value))
    (l : List (String × CompiledField))
    (h : ∀ p ∈ l, r₁.lookup p.1 = r₂.lookup p.1) :
    l.flatMap (field_errors r₁) = l.flatMap (field_errors r₂) ∧
      l.map (resolved_value r₁) = l.map (resolved_value r₂) := by
  induction l with
  | nil => simp
  | cons p t ih =>
    have hp := h p (by simp)
    have ht := ih (fun q hq => h q (by simp [hq]))
    have hv : validate_field r₁ p.1 p.2 = validate_field r₂ p.1 p.2 :=
      validate_field_record_congr _ _ _ _ hp
    simp [field_errors, resolved_value, hv, ht.1, ht.2]

/-- C5: compiling the concrete four-field loan schema succeeds, and
validating the record with loan_amount 350000.00, interest_rate 6.75 and
borrower_name "Jane Smith" succeeds, yielding exactly those three values
plus a null loan_date, in schema order. -/
theorem loan_schema_example_valid :
    create_extraction_model schema_from_api "LoanExtraction" =
      Except.ok LoanExtraction ∧
    validate LoanExtraction extracted_data = Except.ok
      [("loan_amount", Value.float (mkRat 350000 1)),
       ("interest_rate", Value.float (mkRat 675 100)),
       ("borrower_name", Value.str "Jane Smith"),
       ("loan_date", Value.null)] :=
  ⟨by decide, by decide⟩

/-- C6: against the same compiled loan schema, validating the record with
loan_amount -100, interest_rate 150 and empty borrower_name fails with
exactly three field-level errors, aggregated into one error result:
BelowMinimum for loan_amount, AboveMaximum for interest_rate and TooShort
for borrower_name. -/
theorem loan_schema_example_invalid :
    create_extraction_model schema_from_api "LoanExtraction" =
      Except.ok LoanExtraction ∧
    validate LoanExtraction bad_extracted_data = Except.error
      [⟨"loan_amount", FieldErrorKind.BelowMinimum⟩,
       ⟨"interest_rate", FieldErrorKind.AboveMaximum⟩,
       ⟨"borrower_name", FieldErrorKind.TooShort⟩] :=
  ⟨by decide, by decide⟩

/-- C1: evaluation at the failing input.  The optional field `loan_note`
declares the non-null default "none on file", yet compiling it and
validating a record in which it is absent resolves it to null: the default
declared in the field definition is ignored, because the source reads the
default out of `field_kwargs` (which never holds one) instead of out of
`field_def`. -/
theorem declared_default_ignored :
    default_ignored_field.default = some (Value.str "none on file") ∧
    (create_extraction_model [default_ignored_field] "M").map
        (fun s => validate s []) =
      Except.ok (Except.ok [("loan_note", Value.null)]) :=
  ⟨rfl, by decide⟩

/-- C2 counterexample: a field-spec sequence with the duplicate name
"amount" compiles successfully to a usable one-field schema — it is not
rejected with a duplicate-field error. -/
theorem duplicate_name_not_rejected :
    create_extraction_model [dup_a, dup_b] "DynamicExtraction" =
      Except.ok ⟨"DynamicExtraction", [("amount", dup_compiled)]⟩ := by decide

/-- C2 (amended): compiling two field definitions with the same name does
not fail; the later definition silently overwrites the earlier one in the
field dict, and compilation behaves exactly as if only the later
definition had been given. -/
theorem duplicate_name_overwrites :
    ∀ (f g : FieldDef) (cf cg : CompiledField) (mn : String),
      f.name = g.name → build_field f = Except.ok cf →
      build_field g = Except.ok cg → constraint_compatible cg = true →
      create_extraction_model [f, g] mn = Except.ok ⟨mn, [(g.name, cg)]⟩ ∧
      create_extraction_model [f, g] mn = create_extraction_model [g] mn := by
  intro f g cf cg mn hname hf hg hcompat
  have hbeq : (f.name == g.name) = true := by simp [hname]
  have h2 :
      create_extraction_model [f, g] mn = Except.ok ⟨mn, [(g.name, cg)]⟩ := by
    unfold create_extraction_model
    rw [List.foldlM_cons, hf, except_bind_ok, except_pure_eq, except_bind_ok,
      List.foldlM_cons, hg, except_bind_ok, except_pure_eq, except_bind_ok,
      List.foldlM_nil, except_pure_eq, except_bind_ok]
    simp [dictInsert, hbeq, hname, List.all, hcompat, except_pure_eq]
  refine ⟨h2, h2.trans ?_⟩
  unfold create_extraction_model
  rw [List.foldlM_cons, hg, except_bind_ok, except_pure_eq, except_bind_ok,
    List.foldlM_nil, except_pure_eq, except_bind_ok]
  simp [dictInsert, List.all, hcompat, except_pure_eq]

/-- C2 witness: the amended statement applied to the concrete duplicate
pair `dup_a`, `dup_b`. -/
theorem duplicate_name_overwrites_witness :
    create_extraction_model [dup_a, dup_b] "M" =
      Except.ok ⟨"M", [("amount", dup_compiled)]⟩ ∧
    create_extraction_model [dup_a, dup_b] "M" =
      create_extraction_model [dup_b] "M" :=
  duplicate_name_overwrites dup_a dup_b ⟨PType.int, false, none, []⟩ dup_compiled "M"
    (by decide) (by decide) (by decide) (by decide)

/-- C3: a field definition whose constraints do not fit its recognized
type tag — a minimum length on a non-string field, or a numeric bound on a
string or boolean field — makes compilation fail with the
incompatible-constraint definition error, before any record is validated. -/
theorem incompatible_constraint_rejected :
    ∀ (fd : FieldDef) (t : PType) (mn : String),
      type_mapping fd.type_tag = some t →
      ((fd.min_length.isSome = true ∧ t ≠ PType.str) ∨
       ((fd.min.isSome = true ∨ fd.max.isSome = true) ∧
        (t = PType.str ∨ t = PType.bool))) →
      create_extraction_model [fd] mn =
        Except.error DefinitionError.IncompatibleConstraint := by
  intro fd t mn hm hbad
  obtain ⟨cf, hok, hty, hkw, _⟩ := build_field_ok_of_type fd t hm
  have hincompat : constraint_compatible cf = false := by
    unfold constraint_compatible
    rw [hkw, hty, lookup_ge_build_kwargs, lookup_le_build_kwargs,
      lookup_min_length_build_kwargs]
    rcases hbad with ⟨hml, hne⟩ | ⟨hmm, ht⟩
    · rcases Option.isSome_iff_exists.mp hml with ⟨n, hn⟩
      rw [hn]
      cases t <;> simp_all
    · rcases ht with rfl | rfl <;>
        rcases hmm with hmin | hmax <;>
        [rcases Option.isSome_iff_exists.mp hmin with ⟨q, hq⟩;
         rcases Option.isSome_iff_exists.mp hmax with ⟨q, hq⟩;
         rcases Option.isSome_iff_exists.mp hmin with ⟨q, hq⟩;
         rcases Option.isSome_iff_exists.mp hmax with ⟨q, hq⟩] <;>
        rw [hq] <;> simp
  unfold create_extraction_model
  rw [List.foldlM_cons, hok, except_bind_ok, except_pure_eq, except_bind_ok,
    List.foldlM_nil, except_pure_eq, except_bind_ok]
  simp [dictInsert, List.all, hincompat]

/-- C3 witness: a float field carrying a `min_length` constraint is
rejected as incompatible. -/
theorem incompatible_constraint_rejected_witness :
    create_extraction_model [⟨"flag", "float", some true, none, none, none, some 3⟩]
        "M" = Except.error DefinitionError.IncompatibleConstraint :=
  incompatible_constraint_rejected
    ⟨"flag", "float", some true, none, none, none, some 3⟩ PType.float "M"
    (by decide) (Or.inl ⟨by decide, by decide⟩)

/-- C4: a field definition whose type tag is outside the recognized set
{"str", "int", "float", "bool"} (the source's spelling of
{string, integer, float, boolean}) makes compilation fail with the
unknown-type definition error, and every tag inside the set maps to the
corresponding semantic type. -/
theorem unknown_type_rejected :
    (∀ (fd : FieldDef) (mn : String), type_mapping fd.type_tag = none →
      create_extraction_model [fd] mn =
        Except.error DefinitionError.UnknownType) ∧
    (∀ tag : String, tag ≠ "str" → tag ≠ "int" → tag ≠ "float" → tag ≠ "bool" →
      type_mapping tag = none) ∧
    type_mapping "str" = some PType.str ∧
    type_mapping "int" = some PType.int ∧
    type_mapping "float" = some PType.float ∧
    type_mapping "bool" = some PType.bool := by
  refine ⟨?_, ?_, rfl, rfl, rfl, rfl⟩
  · intro fd mn hm
    have hb : build_field fd = Except.error DefinitionError.UnknownType := by
      unfold build_field
      rw [hm]
    unfold create_extraction_model
    rw [List.foldlM_cons, hb, except_bind_error]
    rfl
  · intro tag h1 h2 h3 h4
    unfold type_mapping
    simp [h1, h2, h3, h4]

/-- C4 witness: the unrecognized tag "date" is rejected at compile time. -/
theorem unknown_type_rejected_witness :
    create_extraction_model [⟨"when", "date", some true, none, none, none, none⟩]
        "M" = Except.error DefinitionError.UnknownType ∧
    type_mapping "date" = none :=
  ⟨unknown_type_rejected.1 ⟨"when", "date", some true, none, none, none, none⟩ "M"
      (by decide),
   unknown_type_rejected.2.1 "date" (by decide) (by decide) (by decide) (by decide)⟩

/-- C7: validation aggregates the error lists of all fields, in schema
order, into one error result instead of stopping at the first failure, and
succeeds with every field's resolved value in schema order exactly when no
field produced an error; for a present value, the constraint checks are
skipped exactly when coercion failed (yielding only a type-mismatch
error), and otherwise the field's errors are exactly its constraint
violations. -/
theorem validate_aggregates_all_errors :
    (∀ (s : CompiledSchema) (record : List (String × Value)),
      validate s record =
        if s.fields.flatMap (field_errors record) = [] then
          Except.ok (s.fields.map (resolved_value record))
        else
          Except.error (s.fields.flatMap (field_errors record))) ∧
    (∀ (record : List (String × Value)) (n : String) (cf : CompiledField)
        (v : Value), record.lookup n = some v →
      (coerce cf.python_type cf.nullable v = none →
        validate_field record n cf = ([⟨n, FieldErrorKind.TypeMismatch⟩], none)) ∧
      (∀ cv, coerce cf.python_type cf.nullable v = some cv →
        validate_field record n cf = (check_constraints n cf.kwargs cv, some cv))) := by
  refine ⟨validate_eq_spec, ?_⟩
  intro record n cf v hl
  constructor
  · intro hc
    unfold validate_field
    rw [hl]
    simp only [hc]
  · intro cv hc
    unfold validate_field
    rw [hl]
    simp only [hc]

/-- C7 witness: the closed form of validation at the loan schema and the
in-bounds record, and the constraint-checking step at its `loan_amount`
field. -/
theorem validate_aggregates_all_errors_witness :
    (validate LoanExtraction extracted_data =
      if LoanExtraction.fields.flatMap (field_errors extracted_data) = [] then
        Except.ok (LoanExtraction.fields.map (resolved_value extracted_data))
      else
        Except.error (LoanExtraction.fields.flatMap (field_errors extracted_data))) ∧
    validate_field extracted_data "loan_amount" loan_amount_cf =
      (check_constraints "loan_amount" loan_amount_cf.kwargs
        (Value.float (mkRat 350000 1)), some (Value.float (mkRat 350000 1))) :=
  ⟨validate_aggregates_all_errors.1 LoanExtraction extracted_data,
   (validate_aggregates_all_errors.2 extracted_data "loan_amount" loan_amount_cf
      (Value.float (mkRat 350000 1)) (by decide)).2
     (Value.float (mkRat 350000 1)) (by decide)⟩

/-- C8: when a record lacks a field that the compiled schema marks
required, validation fails, the aggregated error list contains a
missing-required-field entry for that field, and every
missing-required-field entry in it names a schema field that is required
and absent. -/
theorem missing_required_field_reported :
    ∀ (s : CompiledSchema) (record : List (String × Value)) (n : String)
      (cf : CompiledField),
      (n, cf) ∈ s.fields → cf.default = none → record.lookup n = none →
      ∃ errs, validate s record = Except.error errs ∧
        FieldError.mk n FieldErrorKind.MissingRequiredField ∈ errs ∧
        (∀ m, FieldError.mk m FieldErrorKind.MissingRequiredField ∈ errs →
          ∃ cg, (m, cg) ∈ s.fields ∧ cg.default = none ∧
            record.lookup m = none) := by
  intro s record n cf hmem hdef hlook
  have hfe : field_errors record (n, cf) =
      [⟨n, FieldErrorKind.MissingRequiredField⟩] :=
    field_errors_of_missing record (n, cf) hdef hlook
  have hin : FieldError.mk n FieldErrorKind.MissingRequiredField ∈
      s.fields.flatMap (field_errors record) :=
    List.mem_flatMap.mpr ⟨(n, cf), hmem, by rw [hfe]; simp⟩
  have hne : s.fields.flatMap (field_errors record) ≠ [] := List.ne_nil_of_mem hin
  refine ⟨s.fields.flatMap (field_errors record), ?_, hin, ?_⟩
  · rw [validate_eq_spec, if_neg hne]
  · intro m hm
    rcases List.mem_flatMap.mp hm with ⟨p, hp, hpe⟩
    rcases mem_field_errors_missing record p m hpe with ⟨hm1, hm2, hm3⟩
    refine ⟨p.2, ?_, hm2, ?_⟩
    · rw [hm1]
      simpa using hp
    · rw [hm1]
      exact hm3

/-- C8 witness: validating the empty record against the loan schema
reports the missing required `borrower_name`, and every
missing-required-field entry names a required absent field. -/
theorem missing_required_field_reported_witness :
    ∃ errs, validate LoanExtraction [] = Except.error errs ∧
      FieldError.mk "borrower_name" FieldErrorKind.MissingRequiredField ∈ errs ∧
      (∀ m, FieldError.mk m FieldErrorKind.MissingRequiredField ∈ errs →
        ∃ cg, (m, cg) ∈ LoanExtraction.fields ∧ cg.default = none ∧
          List.lookup m ([] : List (String × Value)) = none) :=
  missing_required_field_reported LoanExtraction [] "borrower_name"
    borrower_name_cf (by decide) (by decide) (by decide)

/-- C9: a record key that names no schema field is ignored — appending it
to the record changes nothing about validation — and a successful
validation result contains exactly the schema's field names, in schema
order. -/
theorem extra_keys_ignored :
    (∀ (s : CompiledSchema) (record : List (String × Value)) (k : String)
        (v : Value),
      k ∉ s.fields.map Prod.fst →
      validate s (record ++ [(k, v)]) = validate s record) ∧
    (∀ (s : CompiledSchema) (record out : List (String × Value)),
      validate s record = Except.ok out →
      out.map Prod.fst = s.fields.map Prod.fst) := by
  constructor
  · intro s record k v hk
    have h : ∀ p ∈ s.fields, (record ++ [(k, v)]).lookup p.1 = record.lookup p.1 := by
      intro p hp
      have hne : p.1 ≠ k := fun he => hk (he ▸ List.mem_map_of_mem Prod.fst hp)
      exact lookup_append_not_key p.1 k v record hne
    have hc := errors_values_congr (record ++ [(k, v)]) record s.fields h
    rw [validate_eq_spec, validate_eq_spec, hc.1, hc.2]
  · intro s record out h
    rw [validate_eq_spec] at h
    split at h
    · cases h
      rw [List.map_map]
      exact List.map_congr_left (fun p _ => rfl)
    · simp at h

/-- C9 witness: appending the unrelated key "extra" to the in-bounds loan
record leaves validation unchanged, and the successful output carries
exactly the schema's field names. -/
theorem extra_keys_ignored_witness :
    validate LoanExtraction (extracted_data ++ [("extra", Value.int 7)]) =
      validate LoanExtraction extracted_data ∧
    ([("loan_amount", Value.float (mkRat 350000 1)),
      ("interest_rate", Value.float (mkRat 675 100)),
      ("borrower_name", Value.str "Jane Smith"),
      ("loan_date", Value.null)] : List (String × Value)).map Prod.fst =
      LoanExtraction.fields.map Prod.fst :=
  ⟨extra_keys_ignored.1 LoanExtraction extracted_data "extra" (Value.int 7)
      (by decide),
   extra_keys_ignored.2 LoanExtraction extracted_data _ (by decide)⟩

/-- C10: a field definition with no `required` key is compiled exactly
like one with `required = true`: its compiled field carries no default,
and a record lacking the field fails validation with a
missing-required-field error. -/
theorem omitted_required_defaults_true :
    ∀ (fd : FieldDef) (cf : CompiledField) (mn : String)
      (record : List (String × Value)),
      fd.required = none → build_field fd = Except.ok cf →
      record.lookup fd.name = none →
      build_field fd =
        build_field ⟨fd.name, fd.type_tag, some true, fd.default, fd.min, fd.max,
          fd.min_length⟩ ∧
      cf.default = none ∧
      validate ⟨mn, [(fd.name, cf)]⟩ record =
        Except.error [⟨fd.name, FieldErrorKind.MissingRequiredField⟩] := by
  intro fd cf mn record hreq hok hlook
  have hgd : fd.required.getD true = true := by rw [hreq]; rfl
  have hdef : cf.default = none := by
    cases hm : type_mapping fd.type_tag with
    | none =>
      have hbe : build_field fd = Except.error DefinitionError.UnknownType := by
        unfold build_field
        rw [hm]
      rw [hbe] at hok
      exact Except.noConfusion hok
    | some t =>
      obtain ⟨cf', hok', _, _, hiff⟩ := build_field_ok_of_type fd t hm
      rw [hok'] at hok
      injection hok with h
      exact h ▸ hiff.mpr hgd
  refine ⟨?_, hdef, ?_⟩
  · unfold build_field
    rw [hgd]
    rfl
  · rw [validate_eq_spec]
    have hfe : field_errors record (fd.name, cf) =
        [⟨fd.name, FieldErrorKind.MissingRequiredField⟩] :=
      field_errors_of_missing record (fd.name, cf) hdef hlook
    simp [hfe]

/-- C10 witness: the `doc_id` definition without a `required` key compiles
like its `required = true` variant and rejects a record lacking it. -/
theorem omitted_required_defaults_true_witness :
    build_field ⟨"doc_id", "int", none, none, none, none, none⟩ =
      build_field ⟨"doc_id", "int", some true, none, none, none, none⟩ ∧
    (⟨PType.int, false, none, []⟩ : CompiledField).default = none ∧
    validate ⟨"M", [("doc_id", ⟨PType.int, false, none, []⟩)]⟩
        [("other", Value.int 3)] =
      Except.error [⟨"doc_id", FieldErrorKind.MissingRequiredField⟩] :=
  omitted_required_defaults_true ⟨"doc_id", "int", none, none, none, none, none⟩
    ⟨PType.int, false, none, []⟩ "M" [("other", Value.int 3)] rfl (by decide)
    (by decide)
